import Mathlib

/-!
Shallow embedding of `src/aqi_predictor.cpp`, a rule-based air-quality
simulator.  C++ `double` fields are modelled as exact rationals `ℚ`
(the spec's arithmetic is stated over reals); C++ `int` labels are `ℤ`.
Pure functions of the source become Lean functions; the driver's RNG is
abstracted as an arbitrary stream of raw samples; `istringstream`
parsing is abstracted as an arbitrary `String → Option Sample`
function, since only success/failure of the parse is decided by the
repository's code.
-/

/-- The `Sample` struct (lines 8-21): nine input fields plus two derived
labels.  `CityType`: 0 = rural, 1 = urban. -/
structure Sample where
  Temperature : ℚ
  Humidity : ℚ
  CO2 : ℚ
  PM2_5 : ℚ
  PM10 : ℚ
  NO2 : ℚ
  O3 : ℚ
  WindSpeed : ℚ
  CityType : ℤ
  AQI_Level : ℤ
  Health_Risk : ℤ
deriving DecidableEq

/-- The weighted pollutant score of `compute_aqi_level` (line 37):
`score = 0.3*PM2_5 + 0.2*PM10 + 0.1*NO2 + 0.05*O3`. -/
def pollutionScore (s : Sample) : ℚ :=
  3/10 * s.PM2_5 + 2/10 * s.PM10 + 1/10 * s.NO2 + 5/100 * s.O3

/-- `compute_aqi_level` (lines 35-42): threshold the score at 50/100/200. -/
def compute_aqi_level (s : Sample) : ℤ :=
  if pollutionScore s < 50 then 0
  else if pollutionScore s < 100 then 1
  else if pollutionScore s < 200 then 2
  else 3

/-- `compute_health_risk` (lines 44-54): decision table on the sample's
stored `AQI_Level` field and `CityType`, with the catch-all branch last. -/
def compute_health_risk (s : Sample) : ℤ :=
  let aqi := s.AQI_Level
  if aqi = 0 then 0
  else if aqi = 1 then 1
  else if aqi = 2 ∧ s.CityType = 1 then 2
  else if aqi = 3 then 2
  else if s.CityType = 1 then 2 else 1

/-- The labeling step applied to every sample (lines 109-110 and 220-221):
first `s.AQI_Level = compute_aqi_level(s)`, then
`s.Health_Risk = compute_health_risk(s)` reads the just-stored level. -/
def labelSample (s : Sample) : Sample :=
  let s1 := { s with AQI_Level := compute_aqi_level s }
  { s1 with Health_Risk := compute_health_risk s1 }

/-- A sample is well labeled when its stored labels agree with the two
rule functions applied to it. -/
def WellLabeled (s : Sample) : Prop :=
  s.AQI_Level = compute_aqi_level s ∧ s.Health_Risk = compute_health_risk s

/-- The demo-sample assignment (lines 193-201 and 208-216): sets the nine
input fields of a sample `g` to the fixed demo values, leaving the (still
uninitialized) labels of `g` untouched. -/
def demo_fields (g : Sample) : Sample :=
  { g with Temperature := 33, Humidity := 65, CO2 := 550, PM2_5 := 150,
           PM10 := 180, NO2 := 80, O3 := 60, WindSpeed := 7/2, CityType := 1 }

/-- A concrete all-zero sample, used as an arbitrary initial record. -/
def zeroSample : Sample := ⟨0, 0, 0, 0, 0, 0, 0, 0, 0, 0, 0⟩

/-- The `Metrics` struct (lines 57-62). C++ doubles become `ℚ`; the
`support` counter is a natural number. -/
structure Metrics where
  precision : ℚ
  «recall» : ℚ
  f1 : ℚ
  support : ℕ

/-- `compute_metrics_for_label` (lines 64-81): counts tp/fp/fn over the
positions of the (equal-length) sequence pair, counts support over
`y_true`, and derives precision/recall/F1 with explicit zero fallbacks,
mirroring the C++ `(d) ? tp/(d) : 0.0` conditionals. -/
def compute_metrics_for_label (y_true y_pred : List ℤ) (label : ℤ) : Metrics :=
  let pairs := y_true.zip y_pred
  let tp : ℕ := pairs.countP (fun q => q.1 == label && q.2 == label)
  let fp : ℕ := pairs.countP (fun q => !(q.1 == label) && q.2 == label)
  let fneg : ℕ := pairs.countP (fun q => q.1 == label && !(q.2 == label))
  let supp : ℕ := y_true.countP (fun v => v == label)
  let prec : ℚ := if tp + fp = 0 then 0 else (tp : ℚ) / ((tp : ℚ) + (fp : ℚ))
  let rcl : ℚ := if tp + fneg = 0 then 0 else (tp : ℚ) / ((tp : ℚ) + (fneg : ℚ))
  let f1v : ℚ := if prec + rcl = 0 then 0 else 2 * prec * rcl / (prec + rcl)
  ⟨prec, rcl, f1v, supp⟩

/-- The correct-count loop of the accuracy computation (lines 141-142,
145-146): number of positions where true and predicted labels agree. -/
def countCorrect (y_true y_pred : List ℤ) : ℕ :=
  (y_true.zip y_pred).countP (fun q => q.1 == q.2)

/-- The overall-accuracy computation (lines 143, 147):
`(double)correct / y_true.size()`.  On an empty sequence the C++ code
divides `0.0` by `0.0`, which yields IEEE NaN; `none` models that
undefined value.  On non-empty input the quotient is exact. -/
def overall_accuracy (y_true y_pred : List ℤ) : Option ℚ :=
  if y_true.length = 0 then none
  else some ((countCorrect y_true y_pred : ℚ) / (y_true.length : ℚ))

/-- Spec-side count (index formulation): positions `i` where both the
true and the predicted label equal the target. -/
def spec_tp (t p : List ℤ) (lbl : ℤ) : ℕ :=
  ((Finset.range t.length).filter (fun i => t.getD i 0 = lbl ∧ p.getD i 0 = lbl)).card

/-- Spec-side count: positions where only the predicted label equals the
target. -/
def spec_fp (t p : List ℤ) (lbl : ℤ) : ℕ :=
  ((Finset.range t.length).filter (fun i => ¬t.getD i 0 = lbl ∧ p.getD i 0 = lbl)).card

/-- Spec-side count: positions where only the true label equals the
target. -/
def spec_fn (t p : List ℤ) (lbl : ℤ) : ℕ :=
  ((Finset.range t.length).filter (fun i => t.getD i 0 = lbl ∧ ¬p.getD i 0 = lbl)).card

/-- Spec-side count: positions where the true label equals the target. -/
def spec_support (t : List ℤ) (lbl : ℤ) : ℕ :=
  ((Finset.range t.length).filter (fun i => t.getD i 0 = lbl)).card

/-- Spec-side count: positions where the true label equals the predicted
label. -/
def spec_correct (t p : List ℤ) : ℕ :=
  ((Finset.range t.length).filter (fun i => t.getD i 0 = p.getD i 0)).card

/-- The generation loop (lines 97-113): 1500 raw samples are drawn from
the RNG — abstracted as an arbitrary stream `draw` — and each one is
immediately labeled. -/
def generate_dataset (draw : ℕ → Sample) : List Sample :=
  (List.range 1500).map (fun i => labelSample (draw i))

/-- The train partition size `(int)(0.8 * 1500)` (line 117). -/
def train_size : ℕ := 1200

/-- The line-reading step (lines 186-187): `getline`, and if the line is
empty, one more `getline`.  `lines` is the remaining interactive input
stream; a failed `getline` leaves the string empty. -/
def read_effective_line (lines : List String) : String :=
  let l1 := lines.headD ""
  if l1 = "" then (lines.drop 1).headD "" else l1

/-- The interactive branch (lines 189-218): the literal token `demo`
selects the demo fields; otherwise the line is parsed (the
`istringstream` extraction is abstracted as `parse`, returning the
sample with its nine input fields set on success) and on failure the
demo fields are substituted.  `g` is the uninitialized `Sample s`. -/
def choose_sample (parse : String → Option Sample) (g : Sample) (line : String) : Sample :=
  if line = "demo" then demo_fields g
  else
    match parse line with
    | some s => s
    | none => demo_fields g

/-- The full interactive step (lines 185-221): read the effective line,
choose the sample, then label it. -/
def interactive_result (parse : String → Option Sample) (g : Sample)
    (lines : List String) : Sample :=
  labelSample (choose_sample parse g (read_effective_line lines))

/-- C1: For every Sample, `compute_health_risk` matches the decision
table on (stored AQI level, city type): AQI 0 → 0 and AQI 1 → 1 for any
city type, AQI 2 → 2 when urban (1) and → 1 when rural (0), AQI 3 → 2
for any city type. -/
theorem health_risk_decision_table (s : Sample) :
    (s.AQI_Level = 0 → compute_health_risk s = 0) ∧
    (s.AQI_Level = 1 → compute_health_risk s = 1) ∧
    (s.AQI_Level = 2 → s.CityType = 1 → compute_health_risk s = 2) ∧
    (s.AQI_Level = 2 → s.CityType = 0 → compute_health_risk s = 1) ∧
    (s.AQI_Level = 3 → compute_health_risk s = 2) := by
  refine ⟨?_, ?_, ?_, ?_, ?_⟩ <;> intro h
  · simp [compute_health_risk, h]
  · simp [compute_health_risk, h]
  · intro hc; simp [compute_health_risk, h, hc]
  · intro hc; simp [compute_health_risk, h, hc]
  · simp [compute_health_risk, h]

/-- Witness for C1: the table evaluated on concrete samples, one per row,
each obtained from `health_risk_decision_table`. -/
theorem health_risk_decision_table_witness :
    compute_health_risk { zeroSample with AQI_Level := 0 } = 0 ∧
    compute_health_risk { zeroSample with AQI_Level := 1 } = 1 ∧
    compute_health_risk { zeroSample with AQI_Level := 2, CityType := 1 } = 2 ∧
    compute_health_risk { zeroSample with AQI_Level := 2, CityType := 0 } = 1 ∧
    compute_health_risk { zeroSample with AQI_Level := 3 } = 2 :=
  ⟨(health_risk_decision_table _).1 rfl,
   (health_risk_decision_table _).2.1 rfl,
   (health_risk_decision_table _).2.2.1 rfl rfl,
   (health_risk_decision_table _).2.2.2.1 rfl rfl,
   (health_risk_decision_table _).2.2.2.2 rfl⟩

/-- C9: on the fixed demo sample the pipeline computes score 92, hence
AQI level 1 (Moderate) and health risk 1 (Medium), for any initial
label garbage `g`. -/
theorem demo_sample_pipeline (g : Sample) :
    pollutionScore (demo_fields g) = 3/10 * 150 + 2/10 * 180 + 1/10 * 80 + 5/100 * 60 ∧
    pollutionScore (demo_fields g) = 92 ∧
    compute_aqi_level (demo_fields g) = 1 ∧
    (labelSample (demo_fields g)).AQI_Level = 1 ∧
    (labelSample (demo_fields g)).Health_Risk = 1 := by
  have hscore : pollutionScore (demo_fields g) = 92 := by
    simp [pollutionScore, demo_fields]
    norm_num
  have hlvl : compute_aqi_level (demo_fields g) = 1 := by
    rw [compute_aqi_level, hscore]
    norm_num
  refine ⟨by rw [hscore]; norm_num, hscore, hlvl, ?_, ?_⟩
  · simpa [labelSample] using hlvl
  · simp [labelSample, compute_health_risk, hlvl]

/-- C2: with non-negative pollutant fields the score is the stated
weighted sum, is non-negative, and the level thresholds are half-open:
`[0,50) → 0`, `[50,100) → 1`, `[100,200) → 2`, `[200,∞) → 3`, each
boundary inclusive below and exclusive above. -/
theorem aqi_level_thresholds (s : Sample)
    (h1 : 0 ≤ s.PM2_5) (h2 : 0 ≤ s.PM10) (h3 : 0 ≤ s.NO2) (h4 : 0 ≤ s.O3) :
    pollutionScore s = 3/10 * s.PM2_5 + 2/10 * s.PM10 + 1/10 * s.NO2 + 5/100 * s.O3 ∧
    0 ≤ pollutionScore s ∧
    (pollutionScore s < 50 → compute_aqi_level s = 0) ∧
    (50 ≤ pollutionScore s → pollutionScore s < 100 → compute_aqi_level s = 1) ∧
    (100 ≤ pollutionScore s → pollutionScore s < 200 → compute_aqi_level s = 2) ∧
    (200 ≤ pollutionScore s → compute_aqi_level s = 3) := by
  refine ⟨rfl, ?_, ?_, ?_, ?_, ?_⟩
  · unfold pollutionScore
    linarith
  · intro h
    simp only [compute_aqi_level]
    rw [if_pos h]
  · intro hlo hhi
    simp only [compute_aqi_level]
    split_ifs <;> first | rfl | (exfalso; linarith)
  · intro hlo hhi
    simp only [compute_aqi_level]
    split_ifs <;> first | rfl | (exfalso; linarith)
  · intro hlo
    simp only [compute_aqi_level]
    split_ifs <;> first | rfl | (exfalso; linarith)

/-- Witness for C2: boundary samples with scores exactly 0, 50, 100 and
200, each settled through `aqi_level_thresholds`. -/
theorem aqi_level_thresholds_witness :
    compute_aqi_level zeroSample = 0 ∧
    compute_aqi_level { zeroSample with NO2 := 500 } = 1 ∧
    compute_aqi_level { zeroSample with NO2 := 1000 } = 2 ∧
    compute_aqi_level { zeroSample with NO2 := 2000 } = 3 :=
  ⟨(aqi_level_thresholds zeroSample le_rfl le_rfl le_rfl le_rfl).2.2.1
      (by norm_num [pollutionScore, zeroSample]),
   (aqi_level_thresholds _ le_rfl (by norm_num [zeroSample]) le_rfl le_rfl).2.2.2.1
      (by norm_num [pollutionScore, zeroSample]) (by norm_num [pollutionScore, zeroSample]),
   (aqi_level_thresholds _ le_rfl (by norm_num [zeroSample]) le_rfl le_rfl).2.2.2.2.1
      (by norm_num [pollutionScore, zeroSample]) (by norm_num [pollutionScore, zeroSample]),
   (aqi_level_thresholds _ le_rfl (by norm_num [zeroSample]) le_rfl le_rfl).2.2.2.2.2
      (by norm_num [pollutionScore, zeroSample])⟩

/-- Monotonicity of the level in the score: larger scores never yield a
smaller level. -/
theorem compute_aqi_level_mono_score (s t : Sample)
    (h : pollutionScore s ≤ pollutionScore t) :
    compute_aqi_level s ≤ compute_aqi_level t := by
  simp only [compute_aqi_level]
  split_ifs <;> first | (exfalso; linarith) | omega

/-- C10: `compute_aqi_level` is total with range `{0,1,2,3}` on every
sample (negative scores included), and raising any single pollutant
while fixing the other three never decreases the level. -/
theorem aqi_level_total_and_monotone :
    (∀ s : Sample, compute_aqi_level s = 0 ∨ compute_aqi_level s = 1 ∨
      compute_aqi_level s = 2 ∨ compute_aqi_level s = 3) ∧
    (∀ s t : Sample, s.PM2_5 ≤ t.PM2_5 → s.PM10 = t.PM10 → s.NO2 = t.NO2 →
      s.O3 = t.O3 → compute_aqi_level s ≤ compute_aqi_level t) ∧
    (∀ s t : Sample, s.PM10 ≤ t.PM10 → s.PM2_5 = t.PM2_5 → s.NO2 = t.NO2 →
      s.O3 = t.O3 → compute_aqi_level s ≤ compute_aqi_level t) ∧
    (∀ s t : Sample, s.NO2 ≤ t.NO2 → s.PM2_5 = t.PM2_5 → s.PM10 = t.PM10 →
      s.O3 = t.O3 → compute_aqi_level s ≤ compute_aqi_level t) ∧
    (∀ s t : Sample, s.O3 ≤ t.O3 → s.PM2_5 = t.PM2_5 → s.PM10 = t.PM10 →
      s.NO2 = t.NO2 → compute_aqi_level s ≤ compute_aqi_level t) := by
  refine ⟨?_, ?_, ?_, ?_, ?_⟩
  · intro s
    simp only [compute_aqi_level]
    split_ifs <;> simp
  · intro s t ha hb hc hd
    apply compute_aqi_level_mono_score
    unfold pollutionScore
    rw [hb, hc, hd]
    linarith
  · intro s t ha hb hc hd
    apply compute_aqi_level_mono_score
    unfold pollutionScore
    rw [hb, hc, hd]
    linarith
  · intro s t ha hb hc hd
    apply compute_aqi_level_mono_score
    unfold pollutionScore
    rw [hb, hc, hd]
    linarith
  · intro s t ha hb hc hd
    apply compute_aqi_level_mono_score
    unfold pollutionScore
    rw [hb, hc, hd]
    linarith

/-- Witness for C10: each monotonicity conjunct applied to a concrete
bump of a single pollutant of the all-zero sample. -/
theorem aqi_level_total_and_monotone_witness :
    compute_aqi_level zeroSample ≤ compute_aqi_level { zeroSample with PM2_5 := 200 } ∧
    compute_aqi_level zeroSample ≤ compute_aqi_level { zeroSample with PM10 := 200 } ∧
    compute_aqi_level zeroSample ≤ compute_aqi_level { zeroSample with NO2 := 200 } ∧
    compute_aqi_level zeroSample ≤ compute_aqi_level { zeroSample with O3 := 200 } :=
  ⟨aqi_level_total_and_monotone.2.1 _ _ (by norm_num [zeroSample]) rfl rfl rfl,
   aqi_level_total_and_monotone.2.2.1 _ _ (by norm_num [zeroSample]) rfl rfl rfl,
   aqi_level_total_and_monotone.2.2.2.1 _ _ (by norm_num [zeroSample]) rfl rfl rfl,
   aqi_level_total_and_monotone.2.2.2.2 _ _ (by norm_num [zeroSample]) rfl rfl rfl⟩

/-- Position-count bridge: a `countP` over a zipped pair equals the
index-based count over `Finset.range`, for equal-length lists. -/
theorem countP_zip_eq_card (f : ℤ × ℤ → Bool) :
    ∀ (a b : List ℤ), a.length = b.length →
      (a.zip b).countP f
        = ((Finset.range a.length).filter
            (fun i => f (a.getD i 0, b.getD i 0) = true)).card := by
  intro a
  induction a with
  | nil =>
    intro b h
    simp
  | cons x a ih =>
    intro b h
    cases b with
    | nil => simp at h
    | cons y b =>
      have hlen : a.length = b.length := by simpa using h
      rw [List.zip_cons_cons, List.countP_cons, ih b hlen, List.length_cons,
          Finset.card_filter, Finset.card_filter, Finset.sum_range_succ']
      simp only [List.getD_cons_succ, List.getD_cons_zero]

/-- Position-count bridge for a single list. -/
theorem countP_eq_card_filter (f : ℤ → Bool) :
    ∀ a : List ℤ,
      a.countP f
        = ((Finset.range a.length).filter (fun i => f (a.getD i 0) = true)).card := by
  intro a
  induction a with
  | nil => simp
  | cons x a ih =>
    rw [List.countP_cons, ih, List.length_cons,
        Finset.card_filter, Finset.card_filter, Finset.sum_range_succ']
    simp only [List.getD_cons_succ, List.getD_cons_zero]

/-- The tp counter of the code equals the index-based spec count. -/
theorem tp_eq_spec (t p : List ℤ) (lbl : ℤ) (h : t.length = p.length) :
    (t.zip p).countP (fun q => q.1 == lbl && q.2 == lbl) = spec_tp t p lbl := by
  rw [countP_zip_eq_card _ _ _ h, spec_tp]
  congr 1
  ext i
  simp

/-- The fp counter of the code equals the index-based spec count. -/
theorem fp_eq_spec (t p : List ℤ) (lbl : ℤ) (h : t.length = p.length) :
    (t.zip p).countP (fun q => !(q.1 == lbl) && q.2 == lbl) = spec_fp t p lbl := by
  rw [countP_zip_eq_card _ _ _ h, spec_fp]
  congr 1
  ext i
  simp

/-- The fn counter of the code equals the index-based spec count. -/
theorem fn_eq_spec (t p : List ℤ) (lbl : ℤ) (h : t.length = p.length) :
    (t.zip p).countP (fun q => q.1 == lbl && !(q.2 == lbl)) = spec_fn t p lbl := by
  rw [countP_zip_eq_card _ _ _ h, spec_fn]
  congr 1
  ext i
  simp

/-- The support counter of the code equals the index-based spec count. -/
theorem supp_eq_spec (t : List ℤ) (lbl : ℤ) :
    t.countP (fun v => v == lbl) = spec_support t lbl := by
  rw [countP_eq_card_filter, spec_support]
  congr 1
  ext i
  simp

/-- C3: for equal-length sequences, `compute_metrics_for_label` returns
the spec's tp/fp/fn/support counts with the stated zero-fallback
precision, recall and F1; and for a label absent from both sequences
all three ratios and the support are 0, with no error. -/
theorem metrics_for_label_spec (t p : List ℤ) (lbl : ℤ) (h : t.length = p.length) :
    (compute_metrics_for_label t p lbl).support = spec_support t lbl ∧
    (compute_metrics_for_label t p lbl).precision =
      (if spec_tp t p lbl + spec_fp t p lbl = 0 then 0
       else (spec_tp t p lbl : ℚ) / ((spec_tp t p lbl : ℚ) + (spec_fp t p lbl : ℚ))) ∧
    (compute_metrics_for_label t p lbl).recall =
      (if spec_tp t p lbl + spec_fn t p lbl = 0 then 0
       else (spec_tp t p lbl : ℚ) / ((spec_tp t p lbl : ℚ) + (spec_fn t p lbl : ℚ))) ∧
    (compute_metrics_for_label t p lbl).f1 =
      (if (compute_metrics_for_label t p lbl).precision
            + (compute_metrics_for_label t p lbl).recall = 0 then 0
       else 2 * (compute_metrics_for_label t p lbl).precision
            * (compute_metrics_for_label t p lbl).recall
            / ((compute_metrics_for_label t p lbl).precision
               + (compute_metrics_for_label t p lbl).recall)) ∧
    (lbl ∉ t → lbl ∉ p →
      (compute_metrics_for_label t p lbl).precision = 0 ∧
      (compute_metrics_for_label t p lbl).recall = 0 ∧
      (compute_metrics_for_label t p lbl).f1 = 0 ∧
      (compute_metrics_for_label t p lbl).support = 0) := by
  have htp := tp_eq_spec t p lbl h
  have hfp := fp_eq_spec t p lbl h
  have hfn := fn_eq_spec t p lbl h
  have hsp := supp_eq_spec t lbl
  refine ⟨?_, ?_, ?_, rfl, ?_⟩
  · simp only [compute_metrics_for_label, hsp]
  · simp only [compute_metrics_for_label, htp, hfp]
  · simp only [compute_metrics_for_label, htp, hfn]
  · intro hnt hnp
    have e1 : (t.zip p).countP (fun q => q.1 == lbl && q.2 == lbl) = 0 := by
      rw [List.countP_eq_zero]
      intro q hq hcontra
      have hmem := List.of_mem_zip hq
      rw [Bool.and_eq_true] at hcontra
      exact absurd ((beq_iff_eq.mp hcontra.1) ▸ hmem.1) hnt
    have e2 : (t.zip p).countP (fun q => !(q.1 == lbl) && q.2 == lbl) = 0 := by
      rw [List.countP_eq_zero]
      intro q hq hcontra
      have hmem := List.of_mem_zip hq
      rw [Bool.and_eq_true] at hcontra
      exact absurd ((beq_iff_eq.mp hcontra.2) ▸ hmem.2) hnp
    have e3 : (t.zip p).countP (fun q => q.1 == lbl && !(q.2 == lbl)) = 0 := by
      rw [List.countP_eq_zero]
      intro q hq hcontra
      have hmem := List.of_mem_zip hq
      rw [Bool.and_eq_true] at hcontra
      exact absurd ((beq_iff_eq.mp hcontra.1) ▸ hmem.1) hnt
    have e4 : t.countP (fun v => v == lbl) = 0 := by
      rw [List.countP_eq_zero]
      intro v hv hcontra
      exact absurd ((beq_iff_eq.mp hcontra) ▸ hv) hnt
    refine ⟨?_, ?_, ?_, ?_⟩ <;> simp [compute_metrics_for_label, e1, e2, e3, e4]

/-- Witness for C3: the metrics of `[0,1]` against `[0,2]` at label 0,
obtained from `metrics_for_label_spec`. -/
theorem metrics_for_label_spec_witness :
    (compute_metrics_for_label [0, 1] [0, 2] 0).support = spec_support [0, 1] 0 ∧
    (compute_metrics_for_label [0, 1] [0, 2] 0).precision =
      (if spec_tp [0, 1] [0, 2] 0 + spec_fp [0, 1] [0, 2] 0 = 0 then 0
       else (spec_tp [0, 1] [0, 2] 0 : ℚ)
            / ((spec_tp [0, 1] [0, 2] 0 : ℚ) + (spec_fp [0, 1] [0, 2] 0 : ℚ))) :=
  ⟨(metrics_for_label_spec [0, 1] [0, 2] 0 rfl).1,
   (metrics_for_label_spec [0, 1] [0, 2] 0 rfl).2.1⟩

/-- Zipping a list with itself turns a pair count into a diagonal count. -/
theorem zip_self_countP (f : ℤ × ℤ → Bool) :
    ∀ l : List ℤ, (l.zip l).countP f = l.countP (fun x => f (x, x)) := by
  intro l
  induction l with
  | nil => simp
  | cons x l ih => simp [List.zip_cons_cons, List.countP_cons, ih]

/-- C4: when the true and predicted sequences coincide (as the driver
always arranges, the predictor being the same rule), overall accuracy is
1 and every label with positive support has precision, recall and F1
equal to 1. -/
theorem tautological_evaluation (l : List ℤ) (hne : l ≠ []) :
    overall_accuracy l l = some 1 ∧
    ∀ lbl : ℤ, 0 < (compute_metrics_for_label l l lbl).support →
      (compute_metrics_for_label l l lbl).precision = 1 ∧
      (compute_metrics_for_label l l lbl).«recall» = 1 ∧
      (compute_metrics_for_label l l lbl).f1 = 1 := by
  have hlen : l.length ≠ 0 := fun hz => hne (List.length_eq_zero.mp hz)
  constructor
  · have hcc : countCorrect l l = l.length := by
      rw [countCorrect, zip_self_countP]
      simp
    have hdiv : ((l.length : ℕ) : ℚ) / ((l.length : ℕ) : ℚ) = 1 :=
      div_self (Nat.cast_ne_zero.mpr hlen)
    rw [overall_accuracy, if_neg hlen, hcc, hdiv]
  · intro lbl hsupp
    have htp : (l.zip l).countP (fun q => q.1 == lbl && q.2 == lbl)
        = l.countP (fun v => v == lbl) := by
      rw [zip_self_countP]
      simp
    have hfp : (l.zip l).countP (fun q => !(q.1 == lbl) && q.2 == lbl) = 0 := by
      rw [zip_self_countP, List.countP_eq_zero]
      intro v _ hcontra
      simp at hcontra
    have hfn : (l.zip l).countP (fun q => q.1 == lbl && !(q.2 == lbl)) = 0 := by
      rw [zip_self_countP, List.countP_eq_zero]
      intro v _ hcontra
      simp at hcontra
    have hs : l.countP (fun v => v == lbl) ≠ 0 := by
      have hpos : 0 < l.countP (fun v => v == lbl) := by
        simpa [compute_metrics_for_label] using hsupp
      omega
    have hcast : ((l.countP (fun v => v == lbl) : ℕ) : ℚ) ≠ 0 := Nat.cast_ne_zero.mpr hs
    have hprec : (compute_metrics_for_label l l lbl).precision = 1 := by
      simp only [compute_metrics_for_label, htp, hfp, Nat.add_zero, Nat.cast_zero, add_zero]
      rw [if_neg hs, div_self hcast]
    have hrcl : (compute_metrics_for_label l l lbl).«recall» = 1 := by
      simp only [compute_metrics_for_label, htp, hfn, Nat.add_zero, Nat.cast_zero, add_zero]
      rw [if_neg hs, div_self hcast]
    have hchar : (compute_metrics_for_label l l lbl).f1 =
        if (compute_metrics_for_label l l lbl).precision
            + (compute_metrics_for_label l l lbl).«recall» = 0 then 0
        else 2 * (compute_metrics_for_label l l lbl).precision
            * (compute_metrics_for_label l l lbl).«recall»
            / ((compute_metrics_for_label l l lbl).precision
               + (compute_metrics_for_label l l lbl).«recall») := rfl
    refine ⟨hprec, hrcl, ?_⟩
    rw [hchar, hprec, hrcl]
    norm_num

/-- Witness for C4: the identical pair `[0,0,1]`, with label 0 of
support 2, settled through `tautological_evaluation`. -/
theorem tautological_evaluation_witness :
    overall_accuracy [0, 0, 1] [0, 0, 1] = some 1 ∧
    (compute_metrics_for_label [0, 0, 1] [0, 0, 1] 0).precision = 1 :=
  ⟨(tautological_evaluation [0, 0, 1] (by decide)).1,
   ((tautological_evaluation [0, 0, 1] (by decide)).2 0 (by decide)).1⟩

/-- Labels in `{0,1,2,3}` partition the list: the four per-label counts
sum to the length. -/
theorem count_partition4 : ∀ t : List ℤ,
    (∀ v ∈ t, v = 0 ∨ v = 1 ∨ v = 2 ∨ v = 3) →
    t.countP (fun v => v == (0 : ℤ)) + t.countP (fun v => v == 1)
      + t.countP (fun v => v == 2) + t.countP (fun v => v == 3) = t.length := by
  intro t
  induction t with
  | nil => intro _; simp
  | cons x t ih =>
    intro h
    have hx := h x (List.mem_cons_self _ _)
    have ht := ih (fun v hv => h v (List.mem_cons_of_mem _ hv))
    simp only [List.countP_cons, List.length_cons]
    rcases hx with rfl | rfl | rfl | rfl <;> simp <;> omega

/-- Labels in `{0,1,2}` partition the list: the three per-label counts
sum to the length. -/
theorem count_partition3 : ∀ t : List ℤ,
    (∀ v ∈ t, v = 0 ∨ v = 1 ∨ v = 2) →
    t.countP (fun v => v == (0 : ℤ)) + t.countP (fun v => v == 1)
      + t.countP (fun v => v == 2) = t.length := by
  intro t
  induction t with
  | nil => intro _; simp
  | cons x t ih =>
    intro h
    have hx := h x (List.mem_cons_self _ _)
    have ht := ih (fun v hv => h v (List.mem_cons_of_mem _ hv))
    simp only [List.countP_cons, List.length_cons]
    rcases hx with rfl | rfl | rfl <;> simp <;> omega

/-- C7: when every true label lies in the label space, the supports
returned by `compute_metrics_for_label` over that space (AQI `{0..3}`;
health risk `{0..2}`) sum to the length of the sequences. -/
theorem support_partition (t p : List ℤ) (h : t.length = p.length) :
    ((∀ v ∈ t, v = 0 ∨ v = 1 ∨ v = 2 ∨ v = 3) →
      (compute_metrics_for_label t p 0).support + (compute_metrics_for_label t p 1).support
        + (compute_metrics_for_label t p 2).support
        + (compute_metrics_for_label t p 3).support = t.length) ∧
    ((∀ v ∈ t, v = 0 ∨ v = 1 ∨ v = 2) →
      (compute_metrics_for_label t p 0).support + (compute_metrics_for_label t p 1).support
        + (compute_metrics_for_label t p 2).support = t.length) := by
  constructor
  · intro hdom
    simpa [compute_metrics_for_label] using count_partition4 t hdom
  · intro hdom
    simpa [compute_metrics_for_label] using count_partition3 t hdom

/-- Witness for C7: the AQI label space over `[0,1,2,3]` against
`[3,2,1,0]`, settled through `support_partition`. -/
theorem support_partition_witness :
    (compute_metrics_for_label [0, 1, 2, 3] [3, 2, 1, 0] 0).support
      + (compute_metrics_for_label [0, 1, 2, 3] [3, 2, 1, 0] 1).support
      + (compute_metrics_for_label [0, 1, 2, 3] [3, 2, 1, 0] 2).support
      + (compute_metrics_for_label [0, 1, 2, 3] [3, 2, 1, 0] 3).support
      = ([0, 1, 2, 3] : List ℤ).length :=
  (support_partition [0, 1, 2, 3] [3, 2, 1, 0] rfl).1 (by decide)

/-- Counterexample for C5: on the empty sequence pair the accuracy
computation divides `0.0` by `0.0`, producing NaN (modelled `none`): it
neither returns 0 nor rejects the input. -/
theorem overall_accuracy_empty_nan :
    overall_accuracy ([] : List ℤ) [] = none ∧
    ¬overall_accuracy ([] : List ℤ) [] = some 0 :=
  ⟨rfl, by simp [overall_accuracy]⟩

/-- C5 (amended): on every non-empty equal-length pair the accuracy is
the fraction of positions where true equals predicted; on the empty
pair the code produces the undefined value NaN. -/
theorem overall_accuracy_correct (t p : List ℤ) (hne : t ≠ []) (h : t.length = p.length) :
    overall_accuracy t p = some ((spec_correct t p : ℚ) / (t.length : ℚ)) := by
  have hlen : t.length ≠ 0 := fun hz => hne (List.length_eq_zero.mp hz)
  have hcc : countCorrect t p = spec_correct t p := by
    rw [countCorrect, countP_zip_eq_card _ _ _ h, spec_correct]
    congr 1
    ext i
    simp
  rw [overall_accuracy, if_neg hlen, hcc]

/-- Witness for C5's amended theorem: the pair `[0,1]` vs `[0,2]`. -/
theorem overall_accuracy_correct_witness :
    overall_accuracy [0, 1] [0, 2]
      = some ((spec_correct [0, 1] [0, 2] : ℚ) / (([0, 1] : List ℤ).length : ℚ)) :=
  overall_accuracy_correct [0, 1] [0, 2] (by decide) rfl

/-- Labeling establishes the invariant: the stored labels of a freshly
labeled sample agree with the rule functions. -/
theorem well_labeled_labelSample (s : Sample) : WellLabeled (labelSample s) :=
  ⟨rfl, rfl⟩

/-- C6: every sample the program holds is well labeled: each of the 1500
generated samples (for any RNG draw stream), each member of any
permutation (the shuffle) and of its train/test partitions, and the
interactive sample after its labeling step. -/
theorem labeling_invariant :
    (∀ draw : ℕ → Sample, ∀ s ∈ generate_dataset draw, WellLabeled s) ∧
    (∀ (draw : ℕ → Sample) (shuffled : List Sample),
      shuffled.Perm (generate_dataset draw) →
      (∀ s ∈ shuffled, WellLabeled s) ∧
      (∀ s ∈ shuffled.take train_size, WellLabeled s) ∧
      (∀ s ∈ shuffled.drop train_size, WellLabeled s)) ∧
    (∀ g : Sample, WellLabeled (labelSample g)) := by
  have hgen : ∀ draw : ℕ → Sample, ∀ s ∈ generate_dataset draw, WellLabeled s := by
    intro draw s hs
    simp only [generate_dataset, List.mem_map] at hs
    obtain ⟨i, _, rfl⟩ := hs
    exact well_labeled_labelSample _
  refine ⟨hgen, ?_, fun g => well_labeled_labelSample g⟩
  intro draw shuffled hperm
  have hmem : ∀ s ∈ shuffled, WellLabeled s := fun s hs => hgen draw s (hperm.subset hs)
  exact ⟨hmem,
    fun s hs => hmem s ((List.take_sublist _ _).subset hs),
    fun s hs => hmem s ((List.drop_sublist _ _).subset hs)⟩

/-- Witness for C6: the constant draw stream of all-zero samples, taken
through the shuffle conjunct with the identity permutation. -/
theorem labeling_invariant_witness :
    WellLabeled (labelSample zeroSample) :=
  (labeling_invariant.2.1 (fun _ => zeroSample)
      (generate_dataset (fun _ => zeroSample)) (List.Perm.refl _)).1
    (labelSample zeroSample)
    (List.mem_map_of_mem _ (List.mem_range.mpr (show (0 : ℕ) < 1500 by norm_num)))

/-- The demo sample's pollutant score is 92 whatever the labels of the
underlying uninitialized record. -/
theorem demo_fields_score (g : Sample) : pollutionScore (demo_fields g) = 92 := by
  simp [pollutionScore, demo_fields]
  norm_num

/-- The demo sample's AQI level is 1. -/
theorem demo_fields_aqi (g : Sample) : compute_aqi_level (demo_fields g) = 1 := by
  rw [compute_aqi_level, demo_fields_score g]
  norm_num

/-- After labeling, the demo sample carries AQI level 1 and health
risk 1. -/
theorem demo_fields_labels (g : Sample) :
    (labelSample (demo_fields g)).AQI_Level = 1 ∧
    (labelSample (demo_fields g)).Health_Risk = 1 := by
  have h := demo_fields_aqi g
  constructor
  · simpa [labelSample] using h
  · simp [labelSample, compute_health_risk, h]

/-- C8: any effective input line other than the literal `demo` whose
parse fails (empty lines and wrong field counts included) makes the
program substitute the fixed demo sample: the resulting sample equals
the one obtained by typing `demo`, and its predicted labels are AQI 1
and health risk 1.  The parse function is abstract, so this holds for
whatever set of lines `istringstream` rejects. -/
theorem invalid_input_demo_fallback (parse : String → Option Sample) (g : Sample)
    (lines : List String)
    (hne : read_effective_line lines ≠ "demo")
    (hfail : parse (read_effective_line lines) = none) :
    interactive_result parse g lines = interactive_result parse g ["demo"] ∧
    (interactive_result parse g lines).AQI_Level = 1 ∧
    (interactive_result parse g lines).Health_Risk = 1 := by
  have hchoose : choose_sample parse g (read_effective_line lines) = demo_fields g := by
    rw [choose_sample, if_neg hne, hfail]
  have hdemoline : read_effective_line ["demo"] = "demo" := by
    simp [read_effective_line]
  have hres : interactive_result parse g lines = labelSample (demo_fields g) := by
    rw [interactive_result, hchoose]
  have hdemo : interactive_result parse g ["demo"] = labelSample (demo_fields g) := by
    rw [interactive_result, hdemoline, choose_sample, if_pos rfl]
  refine ⟨hres.trans hdemo.symm, ?_, ?_⟩
  · rw [hres]
    exact (demo_fields_labels g).1
  · rw [hres]
    exact (demo_fields_labels g).2

/-- Witness for C8: the empty input line with a parse that always
fails. -/
theorem invalid_input_demo_fallback_witness :
    interactive_result (fun _ => none) zeroSample [""]
      = interactive_result (fun _ => none) zeroSample ["demo"] ∧
    (interactive_result (fun _ => none) zeroSample [""]).AQI_Level = 1 :=
  ⟨(invalid_input_demo_fallback (fun _ => none) zeroSample [""] (by decide) rfl).1,
   (invalid_input_demo_fallback (fun _ => none) zeroSample [""] (by decide) rfl).2.1⟩
